import Mathlib

/-!
Verification of the Delhi-NCR Urban Heat dashboard (src/app.py).

The dashboard's one computational fragment is the per-district Urban-Heat-Island
statistics derived from live weather samples, plus a three-bucket heat
classifier.  Temperatures are Python floats; we embed them as rationals (ℚ),
with `Option ℚ` / an explicit `PyFloat` type where pandas/numpy NaN semantics
matter.  The script-level control flow (which sections of a render pass run,
which external failures are caught by a section `try/except` and which
propagate) is embedded as an executable step function over the script's
section structure.
-/

namespace DelhiHeat

/-- A monitored location (name, latitude, longitude), src/app.py lines 101-107. -/
structure Location where
  name : String
  lat : ℚ
  lon : ℚ
deriving DecidableEq, Repr

/-- The fixed list of five monitored Delhi-NCR cities, src/app.py lines 101-107. -/
def locations : List Location :=
  [ ⟨"Delhi", 286139/10000, 772090/10000⟩,
    ⟨"Gurgaon", 284595/10000, 770266/10000⟩,
    ⟨"Noida", 285355/10000, 773910/10000⟩,
    ⟨"Faridabad", 284089/10000, 773178/10000⟩,
    ⟨"Ghaziabad", 286692/10000, 774538/10000⟩ ]

/-- The three alert categories returned by `heat_alert` (src/app.py lines
120-126).  The source returns three distinct message strings, one per branch;
we name them by the categories the strings announce: the extreme-heat alert
string, the high-heat warning string, and the normal-temperature string. -/
inductive HeatCategory where
  | EXTREME_HEAT
  | HIGH_HEAT
  | NORMAL
deriving DecidableEq, Repr

/-- `heat_alert(temp)` from src/app.py lines 120-126:
`if temp >= 40: extreme; elif temp >= 35: high; else: normal`. -/
def heat_alert (temp : ℚ) : HeatCategory :=
  if temp ≥ 40 then .EXTREME_HEAT
  else if temp ≥ 35 then .HIGH_HEAT
  else .NORMAL

/-- Severity order on categories, NORMAL < HIGH_HEAT < EXTREME_HEAT (spec §8). -/
def severity : HeatCategory → Nat
  | .NORMAL => 0
  | .HIGH_HEAT => 1
  | .EXTREME_HEAT => 2

/-- pandas `Series.mean()` over the Temperature column (src/app.py line 402 /
line 350).  On a non-empty column it is the arithmetic mean; on an empty column
pandas returns NaN, embedded here as `none`. -/
def series_mean (ts : List ℚ) : Option ℚ :=
  if ts = [] then none else some (ts.sum / ts.length)

/-- `df_uhi['UHI Intensity'] = df_uhi['Temperature'] - mean_temp`
(src/app.py lines 402-404; identically `Temp Anomaly` at lines 349-350):
each district's temperature minus the column mean.  On an empty frame the
subtraction of the NaN mean yields an empty column. -/
def uhi_intensity (ts : List ℚ) : List ℚ :=
  match series_mean ts with
  | none => []
  | some m => ts.map (fun t => t - m)

/-- pandas `Series.idxmax()` on a default-indexed frame (src/app.py line 434):
the positional index of the first occurrence of the maximum value; on an empty
series pandas raises, embedded as `none`. -/
def idxmax (l : List ℚ) : Option Nat :=
  match l.maximum with
  | ⊥ => none
  | (m : ℚ) => some (List.indexOf m l)

/-- pandas `Series.idxmin()` on a default-indexed frame (src/app.py line 435):
the positional index of the first occurrence of the minimum value; on an empty
series pandas raises, embedded as `none`. -/
def idxmin (l : List ℚ) : Option Nat :=
  match l.minimum with
  | ⊤ => none
  | (m : ℚ) => some (List.indexOf m l)

/-- `hottest_district = df_uhi.loc[df_uhi['UHI Intensity'].idxmax()]`
(src/app.py line 434), as the row position selected. -/
def hottest_idx (ts : List ℚ) : Option Nat :=
  idxmax (uhi_intensity ts)

/-- `coolest_district = df_uhi.loc[df_uhi['UHI Intensity'].idxmin()]`
(src/app.py line 435), as the row position selected. -/
def coolest_idx (ts : List ℚ) : Option Nat :=
  idxmin (uhi_intensity ts)

/-- C4: the heat classifier evaluates its thresholds in order with first match
winning — EXTREME_HEAT for t ≥ 40, HIGH_HEAT for 35 ≤ t < 40, NORMAL otherwise
— and classify(40.0) = EXTREME_HEAT, classify(39.999) = HIGH_HEAT,
classify(35.0) = HIGH_HEAT, classify(34.999) = NORMAL, and the out-of-domain
value -200 classifies as NORMAL without error. -/
theorem heat_alert_thresholds (t : ℚ) :
    (40 ≤ t → heat_alert t = .EXTREME_HEAT) ∧
    (35 ≤ t → t < 40 → heat_alert t = .HIGH_HEAT) ∧
    (t < 35 → heat_alert t = .NORMAL) ∧
    heat_alert 40 = .EXTREME_HEAT ∧
    heat_alert (39999/1000) = .HIGH_HEAT ∧
    heat_alert 35 = .HIGH_HEAT ∧
    heat_alert (34999/1000) = .NORMAL ∧
    heat_alert (-200) = .NORMAL := by
  refine ⟨?_, ?_, ?_, ?_, ?_, ?_, ?_, ?_⟩ <;>
    first
      | (intro h; simp only [heat_alert, ge_iff_le]; split_ifs <;> first | rfl | linarith)
      | (intro h h2; simp only [heat_alert, ge_iff_le]; split_ifs <;> first | rfl | linarith)
      | (simp only [heat_alert, ge_iff_le]; norm_num)

/-- Witness for C4 at t = 41. -/
theorem heat_alert_thresholds_witness :
    heat_alert 41 = .EXTREME_HEAT :=
  (heat_alert_thresholds 41).1 (by norm_num)

/-- C5: the heat classifier is monotonic — if a > b then the category for a is
never of lower severity than the category for b (NORMAL < HIGH_HEAT <
EXTREME_HEAT). -/
theorem heat_alert_monotonic (a b : ℚ) (h : a > b) :
    severity (heat_alert b) ≤ severity (heat_alert a) := by
  simp only [heat_alert, ge_iff_le]
  split_ifs <;> simp [severity] <;> linarith

/-- Witness for C5 at a = 41, b = 30. -/
theorem heat_alert_monotonic_witness :
    severity (heat_alert 30) ≤ severity (heat_alert 41) :=
  heat_alert_monotonic 41 30 (by norm_num)

/-- C6: on the example table Delhi=41, Gurgaon=37, Noida=33, Faridabad=30,
Ghaziabad=34 the engine produces mean 35, anomalies [6, 2, -2, -5, -1],
hottest = row 0 (Delhi), coolest = row 3 (Faridabad), and the classifier
yields [EXTREME_HEAT, HIGH_HEAT, NORMAL, NORMAL, NORMAL]. -/
theorem uhi_example_end_to_end :
    series_mean [41, 37, 33, 30, 34] = some 35 ∧
    uhi_intensity [41, 37, 33, 30, 34] = [6, 2, -2, -5, -1] ∧
    hottest_idx [41, 37, 33, 30, 34] = some 0 ∧
    coolest_idx [41, 37, 33, 30, 34] = some 3 ∧
    (locations.get? 0).map Location.name = some "Delhi" ∧
    (locations.get? 3).map Location.name = some "Faridabad" ∧
    ([41, 37, 33, 30, 34] : List ℚ).map heat_alert =
      [.EXTREME_HEAT, .HIGH_HEAT, .NORMAL, .NORMAL, .NORMAL] := by
  have hmean : series_mean [41, 37, 33, 30, 34] = some 35 := by
    simp only [series_mean, if_neg (List.cons_ne_nil _ _)]
    norm_num
  have hanom : uhi_intensity [41, 37, 33, 30, 34] = [6, 2, -2, -5, -1] := by
    simp only [uhi_intensity, hmean]
    norm_num
  refine ⟨hmean, hanom, ?_, ?_, rfl, rfl, ?_⟩
  · simp only [hottest_idx, hanom]
    decide
  · simp only [coolest_idx, hanom]
    decide
  · simp only [List.map]
    norm_num [heat_alert]

theorem sum_map_sub (ts : List ℚ) (m : ℚ) :
    (ts.map (fun t => t - m)).sum = ts.sum - ts.length * m := by
  induction ts with
  | nil => simp
  | cons t ts ih =>
    simp only [List.map_cons, List.sum_cons, List.length_cons, ih]
    push_cast
    ring

theorem series_mean_of_ne_nil (ts : List ℚ) (h : ts ≠ []) :
    series_mean ts = some (ts.sum / ts.length) := by
  simp [series_mean, h]

theorem uhi_intensity_of_ne_nil (ts : List ℚ) (h : ts ≠ []) :
    uhi_intensity ts = ts.map (fun t => t - ts.sum / ts.length) := by
  rw [uhi_intensity, series_mean_of_ne_nil ts h]

/-- C1: for every non-empty sample list the mean temperature is the arithmetic
mean of the temperatures, each district's UHI Intensity is that district's
temperature minus the mean, and the mean of the anomalies is 0, hence within
the 1e-9 tolerance. -/
theorem uhi_anomaly_mean_zero (ts : List ℚ) (h : ts ≠ []) :
    ∃ m, series_mean ts = some m ∧ m = ts.sum / ts.length ∧
      (∃ hlen : (uhi_intensity ts).length = ts.length,
        ∀ i : Fin ts.length,
          (uhi_intensity ts).get (Fin.cast hlen.symm i) = ts.get i - m) ∧
      ∃ z, series_mean (uhi_intensity ts) = some z ∧ |z| ≤ 1 / 1000000000 := by
  have hn : (ts.length : ℚ) ≠ 0 := by
    have hpos := List.length_pos.mpr h
    exact Nat.cast_ne_zero.mpr hpos.ne'
  refine ⟨ts.sum / ts.length, series_mean_of_ne_nil ts h, rfl, ?_, ?_⟩
  · have hu := uhi_intensity_of_ne_nil ts h
    have hlen : (uhi_intensity ts).length = ts.length := by rw [hu]; simp
    refine ⟨hlen, fun i => ?_⟩
    simp only [List.get_eq_getElem, Fin.coe_cast, hu, List.getElem_map]
  · have hu := uhi_intensity_of_ne_nil ts h
    have hne : uhi_intensity ts ≠ [] := by
      rw [hu]
      simpa using h
    have hsum : (uhi_intensity ts).sum = 0 := by
      rw [hu, sum_map_sub]
      field_simp
    refine ⟨0, ?_, by norm_num⟩
    rw [series_mean_of_ne_nil _ hne, hsum]
    simp

/-- Witness for C1 at the sample list [1, 2]. -/
theorem uhi_anomaly_mean_zero_witness :
    ([1, 2] : List ℚ) ≠ [] ∧
    ∃ m, series_mean [1, 2] = some m ∧ m = ([1, 2] : List ℚ).sum / ([1, 2] : List ℚ).length ∧
      (∃ hlen : (uhi_intensity [1, 2]).length = ([1, 2] : List ℚ).length,
        ∀ i : Fin ([1, 2] : List ℚ).length,
          (uhi_intensity [1, 2]).get (Fin.cast hlen.symm i) = ([1, 2] : List ℚ).get i - m) ∧
      ∃ z, series_mean (uhi_intensity [1, 2]) = some z ∧ |z| ≤ 1 / 1000000000 :=
  ⟨by decide, uhi_anomaly_mean_zero [1, 2] (by decide)⟩

theorem get_ne_of_lt_indexOf (l : List ℚ) (a : ℚ) (i : Nat)
    (h : i < List.indexOf a l) (h2 : i < l.length) : l.get ⟨i, h2⟩ ≠ a := by
  have := @List.not_of_lt_findIdx ℚ (fun x => x == a) l i h
  simpa using this

/-- C2: for every non-empty sample list, the hottest row is the one `idxmax`
selects on the anomaly column and the coolest the one `idxmin` selects; the
hottest anomaly is ≥ every anomaly and the coolest ≤ every anomaly, and on
ties the earliest row in input order wins (every strictly earlier row has a
strictly smaller, resp. strictly larger, anomaly). -/
theorem hottest_coolest_selection (ts : List ℚ) (h : ts ≠ []) :
    ∃ hi lo, hottest_idx ts = some hi ∧ coolest_idx ts = some lo ∧
      ∃ (hhi : hi < (uhi_intensity ts).length) (hlo : lo < (uhi_intensity ts).length),
        (∀ i : Fin (uhi_intensity ts).length,
          (uhi_intensity ts).get i ≤ (uhi_intensity ts).get ⟨hi, hhi⟩) ∧
        (∀ i : Fin (uhi_intensity ts).length,
          (uhi_intensity ts).get ⟨lo, hlo⟩ ≤ (uhi_intensity ts).get i) ∧
        (∀ i (hih : i < hi),
          (uhi_intensity ts).get ⟨i, lt_trans hih hhi⟩ <
            (uhi_intensity ts).get ⟨hi, hhi⟩) ∧
        (∀ i (hil : i < lo),
          (uhi_intensity ts).get ⟨lo, hlo⟩ <
            (uhi_intensity ts).get ⟨i, lt_trans hil hlo⟩) := by
  set A := uhi_intensity ts with hA
  have hne : A ≠ [] := by
    rw [hA, uhi_intensity_of_ne_nil ts h]
    simpa using h
  obtain ⟨M, hM⟩ : ∃ m : ℚ, A.maximum = (m : WithBot ℚ) := by
    cases hAm : A.maximum with
    | bot => exact absurd (List.maximum_eq_bot.mp hAm) hne
    | coe m => exact ⟨m, rfl⟩
  obtain ⟨N, hN⟩ : ∃ m : ℚ, A.minimum = (m : WithTop ℚ) := by
    cases hAm : A.minimum with
    | top => exact absurd (List.minimum_eq_top.mp hAm) hne
    | coe m => exact ⟨m, rfl⟩
  obtain ⟨hMmem, hMub⟩ := List.maximum_eq_coe_iff.mp hM
  obtain ⟨hNmem, hNlb⟩ := List.minimum_eq_coe_iff.mp hN
  have hhi : List.indexOf M A < A.length := List.indexOf_lt_length.mpr hMmem
  have hlo : List.indexOf N A < A.length := List.indexOf_lt_length.mpr hNmem
  have hgetM : A.get ⟨List.indexOf M A, hhi⟩ = M := List.indexOf_get hhi
  have hgetN : A.get ⟨List.indexOf N A, hlo⟩ = N := List.indexOf_get hlo
  refine ⟨List.indexOf M A, List.indexOf N A, ?_, ?_, hhi, hlo, ?_, ?_, ?_, ?_⟩
  · simp [hottest_idx, idxmax, ← hA, hM]
  · simp [coolest_idx, idxmin, ← hA, hN]
  · intro i
    rw [hgetM]
    exact hMub _ (A.get_mem i i.isLt)
  · intro i
    rw [hgetN]
    exact hNlb _ (A.get_mem i i.isLt)
  · intro i hih
    rw [hgetM]
    exact lt_of_le_of_ne (hMub _ (A.get_mem i _))
      (get_ne_of_lt_indexOf A M i hih _)
  · intro i hil
    rw [hgetN]
    exact lt_of_le_of_ne (hNlb _ (A.get_mem i _))
      (Ne.symm (get_ne_of_lt_indexOf A N i hil _))

/-- Witness for C2 at the sample list [1, 2]. -/
theorem hottest_coolest_selection_witness :
    ([1, 2] : List ℚ) ≠ [] ∧
    ∃ hi lo, hottest_idx [1, 2] = some hi ∧ coolest_idx [1, 2] = some lo ∧
      ∃ (hhi : hi < (uhi_intensity [1, 2]).length)
        (hlo : lo < (uhi_intensity [1, 2]).length),
        (∀ i : Fin (uhi_intensity [1, 2]).length,
          (uhi_intensity [1, 2]).get i ≤ (uhi_intensity [1, 2]).get ⟨hi, hhi⟩) ∧
        (∀ i : Fin (uhi_intensity [1, 2]).length,
          (uhi_intensity [1, 2]).get ⟨lo, hlo⟩ ≤ (uhi_intensity [1, 2]).get i) ∧
        (∀ i (hih : i < hi),
          (uhi_intensity [1, 2]).get ⟨i, lt_trans hih hhi⟩ <
            (uhi_intensity [1, 2]).get ⟨hi, hhi⟩) ∧
        (∀ i (hil : i < lo),
          (uhi_intensity [1, 2]).get ⟨lo, hlo⟩ <
            (uhi_intensity [1, 2]).get ⟨i, lt_trans hil hlo⟩) :=
  ⟨by decide, hottest_coolest_selection [1, 2] (by decide)⟩

/-- Modelled from the spec: the typed error the spec's UHI-engine contract
names for empty input (§4.1, §8).  src/app.py defines, raises and imports no
such error; the type exists here only so the contract can be stated. -/
inductive InvalidInputError where
  | invalidInput
deriving DecidableEq, Repr

/-- The mean computation of the UHI section (src/app.py line 402) together
with its typed-error channel: the source raises no InvalidInputError
anywhere, so the computation always returns `.ok` of the pandas mean, which
is NaN (`none`) on an empty column. -/
def uhi_mean_run (ts : List ℚ) : Except InvalidInputError (Option ℚ) :=
  .ok (series_mean ts)

/-- C3 counterexample: on the empty sample list the code's mean computation
returns a NaN mean (`.ok none`); it does not fail with InvalidInputError. -/
theorem uhi_empty_no_invalid_input_error :
    uhi_mean_run [] = .ok none ∧
    uhi_mean_run [] ≠ .error InvalidInputError.invalidInput := by
  refine ⟨rfl, ?_⟩
  simp [uhi_mean_run, series_mean]

/-- C3 amended: applied to an empty sample sequence the engine raises no
InvalidInputError (no such error exists in the code); the pandas mean is NaN
(`none`), the anomaly column is empty, and the idxmax/idxmin row selections
have no row to return. -/
theorem uhi_empty_behavior :
    uhi_mean_run [] = .ok none ∧ series_mean [] = none ∧
    uhi_intensity [] = [] ∧ hottest_idx [] = none ∧ coolest_idx [] = none := by
  refine ⟨rfl, rfl, rfl, ?_, ?_⟩ <;> decide

/-- A numpy float64 value as far as this program observes it: a finite value,
NaN, or a signed infinity.  numpy division by zero does not raise: 0/0 is NaN
and x/0 for x ≠ 0 is a signed infinity; comparisons of NaN with anything are
false and the infinities compare by sign. -/
inductive PyFloat where
  | val (q : ℚ)
  | nan
  | inf
  | ninf
deriving DecidableEq, Repr

/-- numpy float64 division. -/
def pyDiv (a b : ℚ) : PyFloat :=
  if b = 0 then
    if a = 0 then .nan else if 0 < a then .inf else .ninf
  else .val (a / b)

/-- numpy `x < c` for a float64 x and a finite literal c: false for NaN and
for +inf, true for -inf. -/
def pyLt (x : PyFloat) (c : ℚ) : Bool :=
  match x with
  | .val q => decide (q < c)
  | .nan => false
  | .inf => false
  | .ninf => true

/-- pandas `Series.min()` over the Temperature column (src/app.py line 367):
NaN (`none`) on an empty column. -/
def seriesMin (ts : List ℚ) : Option ℚ :=
  match ts.minimum with
  | ⊤ => none
  | (m : ℚ) => some m

/-- pandas `Series.max()` over the Temperature column (src/app.py line 367):
NaN (`none`) on an empty column. -/
def seriesMax (ts : List ℚ) : Option ℚ :=
  match ts.maximum with
  | ⊥ => none
  | (m : ℚ) => some m

/-- `temp_normalized = (row.Temperature - min) / (max - min)` (src/app.py
line 367) for a row temperature t, with numpy division semantics.  On an
empty table the pandas min and max are NaN and so is the result. -/
def temp_normalized (ts : List ℚ) (t : ℚ) : PyFloat :=
  match seriesMin ts, seriesMax ts with
  | some lo, some hi => pyDiv (t - lo) (hi - lo)
  | _, _ => .nan

/-- Marker color chosen for the heat-distribution map (src/app.py lines
370-375): blue when temp_normalized < 0.33, orange when < 0.66, red
otherwise; a NaN fails both comparisons and falls through to red. -/
def marker_color (ts : List ℚ) (t : ℚ) : String :=
  if pyLt (temp_normalized ts t) (33/100) then "blue"
  else if pyLt (temp_normalized ts t) (66/100) then "orange"
  else "red"

/-- C10: each district's temperature is normalized as (t - min)/(max - min)
over the current table before the marker color is chosen (a finite value
whenever max ≠ min); when every district reports the same temperature the
denominator is zero, the normalization of every row is NaN — not a
well-defined real number — and every such district falls through to the red
color branch. -/
theorem temp_normalized_degenerate (ts : List ℚ) (t : ℚ) :
    (∀ lo hi, seriesMin ts = some lo → seriesMax ts = some hi → hi ≠ lo →
      temp_normalized ts t = .val ((t - lo) / (hi - lo))) ∧
    ((∀ a ∈ ts, a = t) → t ∈ ts →
      temp_normalized ts t = .nan ∧ marker_color ts t = "red") := by
  constructor
  · intro lo hi hlo hhi hne
    rw [temp_normalized, hlo, hhi]
    unfold pyDiv
    simp [sub_ne_zero.mpr hne]
  · intro hall hmem
    have hmin : ts.minimum = (t : WithTop ℚ) :=
      List.minimum_eq_coe_iff.mpr ⟨hmem, fun a ha => (hall a ha).ge⟩
    have hmax : ts.maximum = (t : WithBot ℚ) :=
      List.maximum_eq_coe_iff.mpr ⟨hmem, fun a ha => (hall a ha).le⟩
    have hnorm : temp_normalized ts t = .nan := by
      rw [temp_normalized]
      simp only [seriesMin, seriesMax, hmin, hmax]
      simp [pyDiv]
    refine ⟨hnorm, ?_⟩
    rw [marker_color, hnorm]
    simp [pyLt]

/-- Witness for C10 at the all-equal table [30, 30, 30, 30, 30]. -/
theorem temp_normalized_degenerate_witness :
    temp_normalized [30, 30, 30, 30, 30] 30 = .nan ∧
    marker_color [30, 30, 30, 30, 30] 30 = "red" :=
  (temp_normalized_degenerate [30, 30, 30, 30, 30] 30).2 (by decide) (by decide)

/-- Outcome of one dashboard section within a render pass. -/
inductive SectionOutcome where
  | rendered
  | inlineError
  | inlineWarning
  | notReached
deriving DecidableEq, Repr

/-- How the external services behave during one render pass: whether an
imagery call of the MODIS map section raises (quota/auth failure) or reports
zero bands, whether the imagery work inside the time-series try raises or
yields no data points, and, for each of the three weather loops, the position
of the first district whose fetch fails (`none` = all five succeed). -/
structure ExtBehavior where
  modisRaise : Bool
  modisEmpty : Bool
  tsRaise : Bool
  tsEmpty : Bool
  wxMarkersFailAt : Option (Fin 5)
  wxSpatialFailAt : Option (Fin 5)
  wxAlertsFailAt : Option (Fin 5)
deriving DecidableEq, Repr

/-- The parameters of one weather-API HTTP GET as `get_weather` builds its
URL (src/app.py lines 110-112): latitude, longitude and the API key. -/
structure WxRequest where
  lat : ℚ
  lon : ℚ
  appid : String
deriving DecidableEq, Repr

/-- The request `get_weather(lat, lon)` issues for a location. -/
def get_weather_request (loc : Location) (apiKey : String) : WxRequest :=
  ⟨loc.lat, loc.lon, apiKey⟩

/-- The weather requests one `for name, lat, lon in locations:` loop issues:
all five on success; when the fetch for position i fails, the requests up to
and including position i (that GET is sent, its response handling raises). -/
def loopRequests (apiKey : String) (failAt : Option (Fin 5)) : List WxRequest :=
  match failAt with
  | none => locations.map (fun loc => get_weather_request loc apiKey)
  | some i => (locations.take (i + 1)).map (fun loc => get_weather_request loc apiKey)

/-- Outcome of one render pass of the script. -/
structure RenderResult where
  modisSection : SectionOutcome
  markerLoop : SectionOutcome
  timeSeriesSection : SectionOutcome
  spatialSection : SectionOutcome
  alertsSection : SectionOutcome
  crashed : Bool
  wxRequests : List WxRequest
deriving DecidableEq, Repr

/-- One render pass of src/app.py after initialization, section by section in
source order.  The MODIS map section (lines 47-98) runs at top level: a
raising imagery call there is unhandled, while a zero-band result only
triggers the st.error of line 92 and execution continues.  The marker loop
(lines 129-143) runs at top level: a failing weather fetch is unhandled.  The
time-series section (lines 158-244) is wrapped in try/except (lines 158/243)
and shows the warning of line 241 when no data points arrive.  The spatial
section (lines 249-451) is wrapped in try/except (lines 249/451) and contains
its own weather loop (lines 252-261).  The live-alerts loop (lines 456-458)
runs at top level.  An unhandled exception terminates the render pass and no
later section is reached. -/
def render_pass (apiKey : String) (b : ExtBehavior) : RenderResult :=
  if b.modisRaise then
    { modisSection := .notReached, markerLoop := .notReached,
      timeSeriesSection := .notReached, spatialSection := .notReached,
      alertsSection := .notReached, crashed := true, wxRequests := [] }
  else
    let modisSection := if b.modisEmpty then SectionOutcome.inlineError else .rendered
    let markerReqs := loopRequests apiKey b.wxMarkersFailAt
    if b.wxMarkersFailAt.isSome then
      { modisSection := modisSection, markerLoop := .notReached,
        timeSeriesSection := .notReached, spatialSection := .notReached,
        alertsSection := .notReached, crashed := true, wxRequests := markerReqs }
    else
      let timeSeriesSection :=
        if b.tsRaise then SectionOutcome.inlineError
        else if b.tsEmpty then .inlineWarning
        else .rendered
      let spatialReqs := loopRequests apiKey b.wxSpatialFailAt
      let spatialSection :=
        if b.wxSpatialFailAt.isSome then SectionOutcome.inlineError else .rendered
      let alertReqs := loopRequests apiKey b.wxAlertsFailAt
      if b.wxAlertsFailAt.isSome then
        { modisSection := modisSection, markerLoop := .rendered,
          timeSeriesSection := timeSeriesSection, spatialSection := spatialSection,
          alertsSection := .notReached, crashed := true,
          wxRequests := markerReqs ++ spatialReqs ++ alertReqs }
      else
        { modisSection := modisSection, markerLoop := .rendered,
          timeSeriesSection := timeSeriesSection, spatialSection := spatialSection,
          alertsSection := .rendered, crashed := false,
          wxRequests := markerReqs ++ spatialReqs ++ alertReqs }

/-- External behavior with every call succeeding and data present. -/
def allOk : ExtBehavior :=
  { modisRaise := false, modisEmpty := false, tsRaise := false, tsEmpty := false,
    wxMarkersFailAt := none, wxSpatialFailAt := none, wxAlertsFailAt := none }

/-- External behavior where only the spatial-section weather fetch for the
first district fails. -/
def spatialOnlyFailure : ExtBehavior :=
  { allOk with wxSpatialFailAt := some 0 }

/-- External behavior where only the marker-loop weather fetch for the first
district fails. -/
def markersOnlyFailure : ExtBehavior :=
  { allOk with wxMarkersFailAt := some 0 }

/-- External behavior where only the MODIS map section's imagery call raises. -/
def modisRaiseOnly : ExtBehavior :=
  { allOk with modisRaise := true }

/-- C7 counterexample: with only the spatial-section weather fetch failing,
the render pass does not terminate — the failure is handled locally by that
section's try/except (src/app.py lines 249 and 451), the section surfaces an
inline error, and the live-alerts loop of the same pass still runs. -/
theorem weather_failure_not_always_fatal :
    (render_pass "k" spatialOnlyFailure).crashed = false ∧
    (render_pass "k" spatialOnlyFailure).spatialSection = .inlineError ∧
    (render_pass "k" spatialOnlyFailure).alertsSection = .rendered :=
  ⟨rfl, rfl, rfl⟩

/-- C7 amended: a failing weather fetch in the marker loop or in the
live-alerts loop is unhandled and terminates the render pass; a failing
weather fetch in the spatial section is caught by that section's try/except,
surfaced as an inline error, and the rest of the render pass still executes. -/
theorem weather_failure_propagation (k : String) (b : ExtBehavior) :
    (b.wxMarkersFailAt.isSome = true → (render_pass k b).crashed = true) ∧
    (b.wxAlertsFailAt.isSome = true → (render_pass k b).crashed = true) ∧
    (b.modisRaise = false → b.wxMarkersFailAt = none → b.wxAlertsFailAt = none →
      b.wxSpatialFailAt.isSome = true →
      (render_pass k b).crashed = false ∧
      (render_pass k b).spatialSection = .inlineError ∧
      (render_pass k b).alertsSection = .rendered) := by
  unfold render_pass
  refine ⟨?_, ?_, ?_⟩
  · intro h
    split_ifs <;> simp_all
  · intro h
    split_ifs <;> simp_all
  · intro h1 h2 h3 h4
    split_ifs <;> simp_all

/-- Witness for C7's amended claim, applying it at a failing marker fetch and
at a failing spatial fetch. -/
theorem weather_failure_propagation_witness :
    (render_pass "k" markersOnlyFailure).crashed = true ∧
    (render_pass "k" spatialOnlyFailure).crashed = false ∧
    (render_pass "k" spatialOnlyFailure).alertsSection = .rendered :=
  ⟨(weather_failure_propagation "k" markersOnlyFailure).1 rfl,
   ((weather_failure_propagation "k" spatialOnlyFailure).2.2 rfl rfl rfl rfl).1,
   ((weather_failure_propagation "k" spatialOnlyFailure).2.2 rfl rfl rfl rfl).2.2⟩

/-- C8 counterexample: a raising imagery failure (quota/auth) inside the
MODIS map section is not caught at any section boundary — it propagates
unhandled, nothing is surfaced inline, and no later section of the render
pass executes. -/
theorem imagery_failure_not_always_caught :
    (render_pass "k" modisRaiseOnly).crashed = true ∧
    (render_pass "k" modisRaiseOnly).modisSection = .notReached ∧
    (render_pass "k" modisRaiseOnly).timeSeriesSection = .notReached ∧
    (render_pass "k" modisRaiseOnly).spatialSection = .notReached ∧
    (render_pass "k" modisRaiseOnly).alertsSection = .notReached :=
  ⟨rfl, rfl, rfl, rfl, rfl⟩

/-- C8 amended: imagery errors inside the time-series section — a raised
exception or an empty result — are caught at that section's boundary and
surfaced inline (error resp. warning), and the zero-band condition of the
MODIS map section is surfaced by its explicit check as an inline error, in
each case with the remaining sections of the same pass still executing; but a
raising imagery failure in the MODIS map section is unhandled and terminates
the whole render pass. -/
theorem imagery_failure_handling (k : String) (b : ExtBehavior) :
    (b.modisRaise = true →
      (render_pass k b).crashed = true ∧
      (render_pass k b).timeSeriesSection = .notReached ∧
      (render_pass k b).spatialSection = .notReached ∧
      (render_pass k b).alertsSection = .notReached) ∧
    (b.modisRaise = false → b.wxMarkersFailAt = none → b.wxAlertsFailAt = none →
      b.modisEmpty = true →
      (render_pass k b).modisSection = .inlineError ∧
      (render_pass k b).crashed = false ∧
      (render_pass k b).alertsSection = .rendered) ∧
    (b.modisRaise = false → b.wxMarkersFailAt = none → b.wxAlertsFailAt = none →
      b.tsRaise = true →
      (render_pass k b).timeSeriesSection = .inlineError ∧
      (render_pass k b).crashed = false ∧
      (render_pass k b).alertsSection = .rendered) ∧
    (b.modisRaise = false → b.wxMarkersFailAt = none → b.wxAlertsFailAt = none →
      b.tsRaise = false → b.tsEmpty = true →
      (render_pass k b).timeSeriesSection = .inlineWarning ∧
      (render_pass k b).crashed = false ∧
      (render_pass k b).alertsSection = .rendered) := by
  unfold render_pass
  refine ⟨?_, ?_, ?_, ?_⟩ <;> (intros; split_ifs <;> simp_all)

/-- External behavior where only the MODIS map section reports zero bands. -/
def modisEmptyOnly : ExtBehavior :=
  { allOk with modisEmpty := true }

/-- External behavior where only the time-series imagery call raises. -/
def tsRaiseOnly : ExtBehavior :=
  { allOk with tsRaise := true }

/-- Witness for C8's amended claim, applying it at a raising map-section
imagery failure, at a zero-band result, and at a raising time-series imagery
failure. -/
theorem imagery_failure_handling_witness :
    (render_pass "k" modisRaiseOnly).crashed = true ∧
    (render_pass "k" modisEmptyOnly).modisSection = .inlineError ∧
    (render_pass "k" modisEmptyOnly).alertsSection = .rendered ∧
    (render_pass "k" tsRaiseOnly).timeSeriesSection = .inlineError ∧
    (render_pass "k" tsRaiseOnly).alertsSection = .rendered :=
  ⟨((imagery_failure_handling "k" modisRaiseOnly).1 rfl).1,
   ((imagery_failure_handling "k" modisEmptyOnly).2.1 rfl rfl rfl rfl).1,
   ((imagery_failure_handling "k" modisEmptyOnly).2.1 rfl rfl rfl rfl).2.2,
   ((imagery_failure_handling "k" tsRaiseOnly).2.2.1 rfl rfl rfl rfl).1,
   ((imagery_failure_handling "k" tsRaiseOnly).2.2.1 rfl rfl rfl rfl).2.2⟩

/-- C9 counterexample: in a failure-free refresh cycle the script issues 15
weather GETs in total and three for Delhi alone (marker loop, spatial
analysis loop, live-alerts loop) — not exactly one per monitored district. -/
theorem weather_requests_not_one_per_district :
    (render_pass "k" allOk).wxRequests.length = 15 ∧
    (render_pass "k" allOk).wxRequests.count
      (get_weather_request ⟨"Delhi", 286139/10000, 772090/10000⟩ "k") = 3 := by
  constructor
  · simp [render_pass, allOk, loopRequests, locations]
  · norm_num [render_pass, allOk, loopRequests, locations, get_weather_request,
      List.count_append, List.count_cons, WxRequest.mk.injEq]

set_option maxHeartbeats 1000000 in
theorem count_request_in_one_loop (k : String) (loc : Location) (hloc : loc ∈ locations) :
    (locations.map (fun l => get_weather_request l k)).count (get_weather_request loc k) = 1 := by
  fin_cases hloc <;>
    norm_num [locations, get_weather_request, List.count_cons, WxRequest.mk.injEq]

/-- C9 amended: in a failure-free refresh cycle the script issues exactly
three weather GETs per monitored district — one in the marker loop, one in
the spatial-analysis loop, one in the live-alerts loop, 15 in total — each
parameterized by that district's latitude, longitude and the API key. -/
theorem weather_requests_three_per_district (k : String) :
    (render_pass k allOk).wxRequests =
      locations.map (fun loc => get_weather_request loc k) ++
        locations.map (fun loc => get_weather_request loc k) ++
        locations.map (fun loc => get_weather_request loc k) ∧
    (render_pass k allOk).wxRequests.length = 3 * locations.length ∧
    ∀ loc ∈ locations,
      (render_pass k allOk).wxRequests.count (get_weather_request loc k) = 3 := by
  have hreq : (render_pass k allOk).wxRequests =
      locations.map (fun loc => get_weather_request loc k) ++
        locations.map (fun loc => get_weather_request loc k) ++
        locations.map (fun loc => get_weather_request loc k) := by
    simp [render_pass, allOk, loopRequests]
  refine ⟨hreq, by rw [hreq]; simp; ring, ?_⟩
  intro loc hloc
  rw [hreq, List.count_append, List.count_append,
    count_request_in_one_loop k loc hloc]

/-- Witness for C9's amended claim at the key "k" and the Delhi location. -/
theorem weather_requests_three_per_district_witness :
    (render_pass "k" allOk).wxRequests.count
      (get_weather_request ⟨"Delhi", 286139/10000, 772090/10000⟩ "k") = 3 :=
  (weather_requests_three_per_district "k").2.2
    ⟨"Delhi", 286139/10000, 772090/10000⟩ (List.mem_cons_self _ _)

end DelhiHeat
